import Mathlib

/-!
# Health-check endpoints of `go_health_check.go`

A shallow embedding of the two HTTP handlers registered by `addHealthChecks`
and of the three dependency probes they use.  Everything the Go code reads from
its surroundings (clock, process environment, database and Redis replies) is an
explicit input; everything it writes (response header, status code, the value
handed to the JSON encoder, the log line) is an explicit output, and the probe
functions a handler calls are recorded in call order.
-/

set_option linter.dupNamespace false

namespace HealthCheck

/-! ## Data model -/

/-- Go type `Status`: the health status of one component.  The empty string is
the zero value of the two `omitempty` fields. -/
structure Status where
  Status : String
  ResponseTime : String
  Message : String
deriving DecidableEq, Repr

/-- Go type `HealthResponse`.  `Time` is an instant of the clock, `Components`
the `map[string]Status` as an association list with unique keys. -/
structure HealthResponse where
  Status : String
  Time : Nat
  GoVersion : String
  Environment : String
  Components : List (String × HealthCheck.Status)
deriving DecidableEq, Repr

/-- Go map assignment `m[k] = v`: replaces the entry of `k` when there is one,
adds it otherwise. -/
def mapSet {α : Type} (m : List (String × α)) (k : String) (v : α) : List (String × α) :=
  match m with
  | [] => [(k, v)]
  | (k0, v0) :: rest => if k0 = k then (k, v) :: rest else (k0, v0) :: mapSet rest k v

/-- Go map read `m[k]` with the presence flag. -/
def mapGet {α : Type} (m : List (String × α)) (k : String) : Option α :=
  match m with
  | [] => none
  | (k0, v0) :: rest => if k0 = k then some v0 else mapGet rest k

/-- Constant `http.StatusOK`. -/
def StatusOK : Nat := 200

/-- Constant `http.StatusServiceUnavailable`. -/
def StatusServiceUnavailable : Nat := 503

/-- What one handler invocation does to the outside: header fields set on the
`http.ResponseWriter`, the code given to `WriteHeader`, the value given to the
JSON encoder, and the lines sent to the logger. -/
structure Outcome (β : Type) where
  header : List (String × String)
  statusCode : Nat
  body : β
  logLines : List String

/-- Go conversion `string(n)` of an integer: the UTF-8 text of the code point
`n`, or of U+FFFD when `n` is not a valid code point. -/
def runeString (n : Int) : String :=
  if 0 ≤ n ∧ Nat.isValidChar n.toNat then String.singleton (Char.ofNat n.toNat)
  else String.singleton (Char.ofNat 0xFFFD)

/-! ## Probes -/

/-- Function `checkDatabaseHealth`.  `openErr` and `pingErr` are the error texts
of `sql.Open` and `db.Ping` (`none` for a nil error), `openConnections` is
`db.Stats().OpenConnections`, `elapsed` the text of `time.Since(startTime)`. -/
def checkDatabaseHealth (openErr pingErr : Option String) (openConnections : Int)
    (elapsed : String) : Status :=
  match openErr with
  | some e =>
    { Status := "DOWN", ResponseTime := "",
      Message := "Failed to open database connection: " ++ e }
  | none =>
    match pingErr with
    | some e =>
      { Status := "DOWN", ResponseTime := "",
        Message := "Failed to ping database: " ++ e }
    | none =>
      if openConnections > 90 then
        { Status := "WARNING", ResponseTime := elapsed,
          Message := "High number of open connections: " ++ runeString openConnections }
      else
        { Status := "UP", ResponseTime := elapsed,
          Message := "Database connection pool open connections: "
            ++ runeString openConnections }

/-- Function `checkRedisHealth`.  `pingErr` is the error text of the Redis ping
(`none` for a nil error), `elapsed` the text of `time.Since(startTime)`. -/
def checkRedisHealth (pingErr : Option String) (elapsed : String) : Status :=
  match pingErr with
  | some e => { Status := "DOWN", ResponseTime := "", Message := "Failed to ping Redis: " ++ e }
  | none => { Status := "UP", ResponseTime := elapsed, Message := "" }

/-- Body of `checkDiskSpace` with the local `usagePercent` as an argument.  The
two locals are finite floating-point constants, compared here as the rational
numbers they denote; `fmt` is the text conversion applied to the percentage. -/
def checkDiskSpaceAt (fmt : ℚ → String) (usagePercent : ℚ) : Status :=
  let threshold : ℚ := 90
  if usagePercent > threshold then
    { Status := "WARNING", ResponseTime := "",
      Message := "Disk usage is high: " ++ fmt usagePercent ++ "%" }
  else
    { Status := "UP", ResponseTime := "",
      Message := "Disk usage: " ++ fmt usagePercent ++ "%" }

/-- Function `checkDiskSpace`: the usage is the simulated constant 75. -/
def checkDiskSpace (fmt : ℚ → String) : Status :=
  checkDiskSpaceAt fmt 75

/-! ## Handlers -/

/-- Everything a request reads from outside the program. -/
structure World where
  now : Nat
  goVersion : String
  appEnv : String
  dbOpenErr : Option String
  dbPingErr : Option String
  dbOpenConnections : Int
  dbElapsed : String
  redisPingErr : Option String
  redisElapsed : String
  fmtPercent : ℚ → String
  totalElapsed : String

/-- Body of `detailedHealthCheck` from the three probe results on: `now`,
`goVersion` and `appEnv` fill the report, `responseTime` is the text of
`time.Since(startTime)`. -/
def detailedHealthCheckFrom (now : Nat) (goVersion appEnv : String)
    (dbStatus redisStatus diskStatus : Status) (responseTime : String) :
    Outcome HealthResponse := Id.run do
  let mut healthResponse : HealthResponse :=
    { Status := "UP", Time := now, GoVersion := goVersion, Environment := appEnv,
      Components := [] }
  healthResponse :=
    { healthResponse with Components := mapSet healthResponse.Components "database" dbStatus }
  if dbStatus.Status ≠ "UP" then
    healthResponse := { healthResponse with Status := "DOWN" }
  healthResponse :=
    { healthResponse with Components := mapSet healthResponse.Components "redis" redisStatus }
  if redisStatus.Status ≠ "DOWN" then
    healthResponse := { healthResponse with Status := "DOWN" }
  healthResponse :=
    { healthResponse with Components := mapSet healthResponse.Components "disk" diskStatus }
  if diskStatus.Status ≠ "UP" then
    healthResponse := { healthResponse with Status := "WARNING" }
  healthResponse :=
    { healthResponse with
      Components := mapSet healthResponse.Components "responseTime"
        { Status := "UP", ResponseTime := "", Message := responseTime } }
  let mut statusCode := StatusOK
  if healthResponse.Status = "DOWN" then
    statusCode := StatusServiceUnavailable
  else if healthResponse.Status = "WARNING" then
    statusCode := StatusOK
  return {
    header := [("Content-Type", "application/json")]
    statusCode := statusCode
    body := healthResponse
    logLines := ["Health check status: " ++ healthResponse.Status
      ++ ", Response time: " ++ responseTime] }

/-- The three probe functions a handler can call. -/
inductive Probe where
  | checkDatabaseHealth
  | checkRedisHealth
  | checkDiskSpace
deriving DecidableEq, Repr

/-- What a call of the probe returns in the world `w`. -/
def Probe.result (w : World) : Probe → Status
  | Probe.checkDatabaseHealth =>
    HealthCheck.checkDatabaseHealth w.dbOpenErr w.dbPingErr w.dbOpenConnections w.dbElapsed
  | Probe.checkRedisHealth => HealthCheck.checkRedisHealth w.redisPingErr w.redisElapsed
  | Probe.checkDiskSpace => HealthCheck.checkDiskSpace w.fmtPercent

/-- A handler body: it reads the world and extends the record of the probe
calls made so far, in call order. -/
abbrev Handler (α : Type) := ReaderT World (StateM (List Probe)) α

/-- A call of a probe function from a handler: the call is recorded and the
probe's result in the current world returned. -/
def call (p : Probe) : Handler Status := do
  let w ← read
  modify (fun calls => calls ++ [p])
  return p.result w

/-- Function `detailedHealthCheck`: calls the three probes in source order and
aggregates their results. -/
def detailedHealthCheck : Handler (Outcome HealthResponse) := do
  let w ← read
  let dbStatus ← call Probe.checkDatabaseHealth
  let redisStatus ← call Probe.checkRedisHealth
  let diskStatus ← call Probe.checkDiskSpace
  return detailedHealthCheckFrom w.now w.goVersion w.appEnv dbStatus redisStatus diskStatus
    w.totalElapsed

/-- The anonymous handler registered under `/health`: three writes to the
response and no call; the encoded value is the Go map with the single entry
`status` to `UP`. -/
def healthHandler : Handler (Outcome (List (String × String))) := do
  return {
    header := [("Content-Type", "application/json")]
    statusCode := StatusOK
    body := mapSet [] "status" "UP"
    logLines := [] }

/-- A value handed to the JSON encoder by one of the two handlers. -/
inductive Body where
  | stringMap (m : List (String × String))
  | report (r : HealthResponse)
deriving DecidableEq, Repr

/-- Changes the body of an outcome, keeping the rest. -/
def Outcome.mapBody {β γ : Type} (f : β → γ) (o : Outcome β) : Outcome γ :=
  { header := o.header, statusCode := o.statusCode, body := f o.body, logLines := o.logLines }

/-- An `http.ServeMux` restricted to patterns without a trailing slash, which
match exactly their own path. -/
abbrev ServeMux := List (String × Handler (Outcome Body))

/-- Method `HandleFunc`: registering a pattern twice panics (`none`). -/
def HandleFunc (router : ServeMux) (pattern : String) (handler : Handler (Outcome Body)) :
    Option ServeMux :=
  match mapGet router pattern with
  | some _ => none
  | none => some (mapSet router pattern handler)

/-- Function `addHealthChecks`. -/
def addHealthChecks (router : ServeMux) : Option ServeMux := do
  let router ← HandleFunc router "/health"
    (do return (← healthHandler).mapBody Body.stringMap)
  HandleFunc router "/health/details"
    (do return (← detailedHealthCheck).mapBody Body.report)

/-- Serving a request for `path` in the world `w` after the probe calls `calls`:
the outcome of the matching handler and the probe calls extended by those the
handler made; `none` when no pattern matches. -/
def serve (router : ServeMux) (path : String) (w : World) (calls : List Probe) :
    Option (Outcome Body × List Probe) :=
  (mapGet router path).map (fun handler => (handler.run w).run calls)

/-! ## The aggregation rule of the specification -/

/-- Worst-case precedence over a list of probe statuses, as the specification
words it: DOWN if any is DOWN, else WARNING if any is WARNING, else UP. -/
def worstCaseStatus (statuses : List String) : String :=
  if "DOWN" ∈ statuses then "DOWN"
  else if "WARNING" ∈ statuses then "WARNING"
  else "UP"

/-- Text `e` occurs in text `s`. -/
def Contains (s e : String) : Prop :=
  ∃ pre post : String, s = pre ++ e ++ post


/-! ## Closed forms of the aggregate handler -/

/-- The overall status written by the handler, as a function of the three
probe statuses: the disk test is the last to write, the Redis test the one
before, the database test the first. -/
theorem detailedHealthCheckFrom_status (now : Nat) (goVersion appEnv : String)
    (dbStatus redisStatus diskStatus : Status) (responseTime : String) :
    (detailedHealthCheckFrom now goVersion appEnv dbStatus redisStatus diskStatus
      responseTime).body.Status =
      if diskStatus.Status ≠ "UP" then "WARNING"
      else if redisStatus.Status ≠ "DOWN" then "DOWN"
      else if dbStatus.Status ≠ "UP" then "DOWN"
      else "UP" := by
  simp only [detailedHealthCheckFrom, Id.run]
  split_ifs <;> simp_all

/-- The status code written by the handler in terms of the overall status. -/
theorem detailedHealthCheckFrom_statusCode (now : Nat) (goVersion appEnv : String)
    (dbStatus redisStatus diskStatus : Status) (responseTime : String) :
    (detailedHealthCheckFrom now goVersion appEnv dbStatus redisStatus diskStatus
      responseTime).statusCode =
      if (detailedHealthCheckFrom now goVersion appEnv dbStatus redisStatus diskStatus
        responseTime).body.Status = "DOWN" then 503 else 200 := by
  simp only [detailedHealthCheckFrom, Id.run, StatusOK, StatusServiceUnavailable]
  split_ifs <;> simp_all

/-- The components map written by the handler holds the three probe results
and the synthetic elapsed-time entry, each under its own key. -/
theorem detailedHealthCheckFrom_components (now : Nat) (goVersion appEnv : String)
    (dbStatus redisStatus diskStatus : Status) (responseTime : String) :
    (detailedHealthCheckFrom now goVersion appEnv dbStatus redisStatus diskStatus
      responseTime).body.Components =
      [("database", dbStatus), ("redis", redisStatus), ("disk", diskStatus),
       ("responseTime", { Status := "UP", ResponseTime := "", Message := responseTime })] := by
  simp only [detailedHealthCheckFrom, Id.run]
  split_ifs <;> simp [mapSet]

/-- The status of the database probe in its three cases. -/
theorem checkDatabaseHealth_cases (openErr pingErr : Option String) (n : Int)
    (elapsed : String) :
    (checkDatabaseHealth openErr pingErr n elapsed).Status =
      if openErr ≠ none ∨ pingErr ≠ none then "DOWN"
      else if n > 90 then "WARNING" else "UP" := by
  cases openErr <;> cases pingErr <;> simp only [checkDatabaseHealth] <;> split_ifs <;> simp_all

/-! ## Aggregation -/

/-- C1: on the code the worst-case rule fails.  With the database, Redis and
disk probes all UP the handler reports DOWN where the rule gives UP, and with
database DOWN, Redis DOWN and disk WARNING it reports WARNING where the rule
gives DOWN. -/
theorem detailedHealthCheck_not_worst_case :
    (detailedHealthCheckFrom 0 "go1.21" "prod"
        { Status := "UP", ResponseTime := "2ms", Message := "" }
        { Status := "UP", ResponseTime := "1ms", Message := "" }
        { Status := "UP", ResponseTime := "", Message := "Disk usage: 75%" }
        "4ms").body.Status = "DOWN"
      ∧ worstCaseStatus ["UP", "UP", "UP"] = "UP"
      ∧ (detailedHealthCheckFrom 0 "go1.21" "prod"
        { Status := "DOWN", ResponseTime := "", Message := "Failed to ping database: refused" }
        { Status := "DOWN", ResponseTime := "", Message := "Failed to ping Redis: refused" }
        { Status := "WARNING", ResponseTime := "", Message := "Disk usage is high: 95%" }
        "4ms").body.Status = "WARNING"
      ∧ worstCaseStatus ["DOWN", "DOWN", "WARNING"] = "DOWN" := by
  refine ⟨?_, ?_, ?_, ?_⟩ <;> decide

/-- C2: the status code written by the handler is 503 exactly when the overall
status of the report is DOWN and 200 exactly when it is not; it is one of the
two, so never 500. -/
theorem detailedHealthCheck_code_iff_down (now : Nat) (goVersion appEnv : String)
    (dbStatus redisStatus diskStatus : Status) (responseTime : String) :
    ((detailedHealthCheckFrom now goVersion appEnv dbStatus redisStatus diskStatus
        responseTime).statusCode = 503 ↔
      (detailedHealthCheckFrom now goVersion appEnv dbStatus redisStatus diskStatus
        responseTime).body.Status = "DOWN")
    ∧ ((detailedHealthCheckFrom now goVersion appEnv dbStatus redisStatus diskStatus
        responseTime).statusCode = 200 ↔
      (detailedHealthCheckFrom now goVersion appEnv dbStatus redisStatus diskStatus
        responseTime).body.Status ≠ "DOWN")
    ∧ (detailedHealthCheckFrom now goVersion appEnv dbStatus redisStatus diskStatus
        responseTime).statusCode ≠ 500 := by
  rw [detailedHealthCheckFrom_statusCode]
  split_ifs with h <;> simp [h]

/-- C3: with the three probes UP, whatever their messages and response times,
the handler reports overall DOWN with code 503, not UP with code 200. -/
theorem detailedHealthCheck_all_up (now : Nat) (goVersion appEnv : String)
    (dbTime dbMsg redisTime redisMsg diskTime diskMsg responseTime : String) :
    (detailedHealthCheckFrom now goVersion appEnv
        { Status := "UP", ResponseTime := dbTime, Message := dbMsg }
        { Status := "UP", ResponseTime := redisTime, Message := redisMsg }
        { Status := "UP", ResponseTime := diskTime, Message := diskMsg }
        responseTime).body.Status = "DOWN"
    ∧ (detailedHealthCheckFrom now goVersion appEnv
        { Status := "UP", ResponseTime := dbTime, Message := dbMsg }
        { Status := "UP", ResponseTime := redisTime, Message := redisMsg }
        { Status := "UP", ResponseTime := diskTime, Message := diskMsg }
        responseTime).statusCode = 503 := by
  have hs := detailedHealthCheckFrom_status now goVersion appEnv
    { Status := "UP", ResponseTime := dbTime, Message := dbMsg }
    { Status := "UP", ResponseTime := redisTime, Message := redisMsg }
    { Status := "UP", ResponseTime := diskTime, Message := diskMsg } responseTime
  simp at hs
  refine ⟨hs, ?_⟩
  rw [detailedHealthCheckFrom_statusCode, hs]
  simp

/-- C4: when opening or pinging the database fails with error text `e` and the
disk probe is UP, then for every Redis result the report is DOWN, the code is
503, and the entry read back under the key database is the probe result itself,
with status DOWN and a message in which `e` occurs. -/
theorem detailedHealthCheck_database_failure (now : Nat) (goVersion appEnv : String)
    (openErr pingErr : Option String) (e : String) (n : Int) (elapsed : String)
    (redisStatus diskStatus : Status) (responseTime : String)
    (hfail : openErr = some e ∨ (openErr = none ∧ pingErr = some e))
    (hdisk : diskStatus.Status = "UP") :
    (detailedHealthCheckFrom now goVersion appEnv
        (checkDatabaseHealth openErr pingErr n elapsed) redisStatus diskStatus
        responseTime).body.Status = "DOWN"
    ∧ (detailedHealthCheckFrom now goVersion appEnv
        (checkDatabaseHealth openErr pingErr n elapsed) redisStatus diskStatus
        responseTime).statusCode = 503
    ∧ mapGet (detailedHealthCheckFrom now goVersion appEnv
        (checkDatabaseHealth openErr pingErr n elapsed) redisStatus diskStatus
        responseTime).body.Components "database"
        = some (checkDatabaseHealth openErr pingErr n elapsed)
    ∧ (checkDatabaseHealth openErr pingErr n elapsed).Status = "DOWN"
    ∧ Contains (checkDatabaseHealth openErr pingErr n elapsed).Message e := by
  have hdb : (checkDatabaseHealth openErr pingErr n elapsed).Status = "DOWN" := by
    rw [checkDatabaseHealth_cases]
    rcases hfail with h | ⟨h1, h2⟩ <;> simp_all
  have hs : (detailedHealthCheckFrom now goVersion appEnv
      (checkDatabaseHealth openErr pingErr n elapsed) redisStatus diskStatus
      responseTime).body.Status = "DOWN" := by
    rw [detailedHealthCheckFrom_status, hdb, hdisk]
    simp
  refine ⟨hs, ?_, ?_, hdb, ?_⟩
  · rw [detailedHealthCheckFrom_statusCode, hs]
    simp
  · rw [detailedHealthCheckFrom_components]
    simp [mapGet]
  · rcases hfail with h | ⟨h1, h2⟩
    · subst h
      exact ⟨"Failed to open database connection: ", "", by simp [checkDatabaseHealth]⟩
    · subst h1 h2
      exact ⟨"Failed to ping database: ", "", by simp [checkDatabaseHealth]⟩

/-- C4, at a refused connection: the ping fails with the text
connection refused while Redis and the disk are UP. -/
theorem detailedHealthCheck_database_failure_witness :
    ((none : Option String) = some "connection refused"
        ∨ ((none : Option String) = none
          ∧ some "connection refused" = some "connection refused"))
    ∧ (checkDiskSpace (fun _ => "75")).Status = "UP"
    ∧ (detailedHealthCheckFrom 7 "go1.21" "prod"
        (checkDatabaseHealth none (some "connection refused") 0 "3ms")
        (checkRedisHealth none "1ms") (checkDiskSpace (fun _ => "75"))
        "5ms").body.Status = "DOWN"
    ∧ (detailedHealthCheckFrom 7 "go1.21" "prod"
        (checkDatabaseHealth none (some "connection refused") 0 "3ms")
        (checkRedisHealth none "1ms") (checkDiskSpace (fun _ => "75"))
        "5ms").statusCode = 503
    ∧ mapGet (detailedHealthCheckFrom 7 "go1.21" "prod"
        (checkDatabaseHealth none (some "connection refused") 0 "3ms")
        (checkRedisHealth none "1ms") (checkDiskSpace (fun _ => "75"))
        "5ms").body.Components "database"
        = some (checkDatabaseHealth none (some "connection refused") 0 "3ms")
    ∧ (checkDatabaseHealth none (some "connection refused") 0 "3ms").Status = "DOWN"
    ∧ Contains (checkDatabaseHealth none (some "connection refused") 0 "3ms").Message
        "connection refused" :=
  ⟨Or.inr ⟨rfl, rfl⟩, by decide,
    detailedHealthCheck_database_failure 7 "go1.21" "prod" none
      (some "connection refused") "connection refused" 0 "3ms"
      (checkRedisHealth none "1ms") (checkDiskSpace (fun _ => "75")) "5ms"
      (Or.inr ⟨rfl, rfl⟩) (by decide)⟩

/-! ## The shallow endpoint -/

/-- The detailed handler calls the database, Redis and disk probes, in this
order, and writes the aggregation of their results in the world. -/
theorem detailedHealthCheck_run (w : World) (calls : List Probe) :
    (detailedHealthCheck.run w).run calls =
      (detailedHealthCheckFrom w.now w.goVersion w.appEnv
          (checkDatabaseHealth w.dbOpenErr w.dbPingErr w.dbOpenConnections w.dbElapsed)
          (checkRedisHealth w.redisPingErr w.redisElapsed)
          (checkDiskSpace w.fmtPercent) w.totalElapsed,
        calls ++ [Probe.checkDatabaseHealth, Probe.checkRedisHealth, Probe.checkDiskSpace]) := by
  simp [detailedHealthCheck, call, Probe.result, ReaderT.run, StateT.run, bind, ReaderT.bind,
    StateT.bind, read, ReaderT.read, readThe, MonadReaderOf.read, pure, ReaderT.pure,
    StateT.pure, modify, modifyGet, MonadStateOf.modifyGet, StateT.modifyGet, liftM, monadLift,
    MonadLift.monadLift, StateT.lift]

/-- The detailed endpoint, served by a fresh router after `addHealthChecks`,
records three probe calls. -/
theorem details_calls_probes (w : World) (calls : List Probe) :
    ((addHealthChecks []).bind (fun router => serve router "/health/details" w calls)).map
        Prod.snd =
      some (calls ++ [Probe.checkDatabaseHealth, Probe.checkRedisHealth,
        Probe.checkDiskSpace]) := by
  have h := detailedHealthCheck_run w calls
  simp [addHealthChecks, HandleFunc, mapGet, mapSet, serve, ReaderT.run, StateT.run, bind,
    ReaderT.bind, StateT.bind, pure, ReaderT.pure, StateT.pure, Option.bind] at h ⊢
  rw [h]

/-- C5: in every world and after any record of probe calls, the handler of the
path /health writes code 200, hands the encoder the map whose only entry is
status to UP, and leaves the record of probe calls as it found it: it calls no
probe.  The same holds when the path /health is served by a fresh router after
`addHealthChecks`. -/
theorem health_always_up (w : World) (calls : List Probe) :
    (healthHandler.run w).run calls =
      ({ header := [("Content-Type", "application/json")], statusCode := 200,
         body := [("status", "UP")], logLines := [] }, calls)
    ∧ (addHealthChecks []).bind (fun router => serve router "/health" w calls) =
      some ({ header := [("Content-Type", "application/json")], statusCode := 200,
              body := Body.stringMap [("status", "UP")], logLines := [] }, calls) := by
  constructor
  · simp [healthHandler, mapSet, StatusOK, ReaderT.run, StateT.run, pure, ReaderT.pure,
      StateT.pure]
  · simp [addHealthChecks, HandleFunc, mapGet, mapSet, serve, healthHandler, Outcome.mapBody,
      StatusOK, ReaderT.run, StateT.run, bind, ReaderT.bind, StateT.bind, pure, ReaderT.pure,
      StateT.pure, Option.bind]

/-! ## Determinism in the probe statuses -/

/-- C6: two runs of the handler whose database, Redis and disk results agree on
the status field report the same overall status and the same code, whatever
the messages, response times, clock, environment name and elapsed time. -/
theorem detailedHealthCheck_depends_on_statuses
    (now1 now2 : Nat) (goVersion1 goVersion2 appEnv1 appEnv2 : String)
    (db1 db2 redis1 redis2 disk1 disk2 : Status) (responseTime1 responseTime2 : String)
    (hdb : db1.Status = db2.Status) (hredis : redis1.Status = redis2.Status)
    (hdisk : disk1.Status = disk2.Status) :
    (detailedHealthCheckFrom now1 goVersion1 appEnv1 db1 redis1 disk1
        responseTime1).body.Status =
      (detailedHealthCheckFrom now2 goVersion2 appEnv2 db2 redis2 disk2
        responseTime2).body.Status
    ∧ (detailedHealthCheckFrom now1 goVersion1 appEnv1 db1 redis1 disk1
        responseTime1).statusCode =
      (detailedHealthCheckFrom now2 goVersion2 appEnv2 db2 redis2 disk2
        responseTime2).statusCode := by
  have hs : (detailedHealthCheckFrom now1 goVersion1 appEnv1 db1 redis1 disk1
      responseTime1).body.Status =
      (detailedHealthCheckFrom now2 goVersion2 appEnv2 db2 redis2 disk2
        responseTime2).body.Status := by
    rw [detailedHealthCheckFrom_status, detailedHealthCheckFrom_status, hdb, hredis, hdisk]
  refine ⟨hs, ?_⟩
  rw [detailedHealthCheckFrom_statusCode, detailedHealthCheckFrom_statusCode, hs]

/-- C6, at two runs that differ in every field but the three statuses. -/
theorem detailedHealthCheck_depends_on_statuses_witness :
    (checkDatabaseHealth none none 3 "2ms").Status
        = (checkDatabaseHealth none none 41 "9ms").Status
    ∧ (checkRedisHealth (some "timeout") "").Status
        = (checkRedisHealth (some "refused") "").Status
    ∧ (checkDiskSpace (fun _ => "75")).Status = (checkDiskSpace (fun _ => "75.0")).Status
    ∧ (detailedHealthCheckFrom 1 "go1.20" "staging" (checkDatabaseHealth none none 3 "2ms")
        (checkRedisHealth (some "timeout") "") (checkDiskSpace (fun _ => "75"))
        "4ms").body.Status =
      (detailedHealthCheckFrom 2 "go1.21" "prod" (checkDatabaseHealth none none 41 "9ms")
        (checkRedisHealth (some "refused") "") (checkDiskSpace (fun _ => "75.0"))
        "12ms").body.Status
    ∧ (detailedHealthCheckFrom 1 "go1.20" "staging" (checkDatabaseHealth none none 3 "2ms")
        (checkRedisHealth (some "timeout") "") (checkDiskSpace (fun _ => "75"))
        "4ms").statusCode =
      (detailedHealthCheckFrom 2 "go1.21" "prod" (checkDatabaseHealth none none 41 "9ms")
        (checkRedisHealth (some "refused") "") (checkDiskSpace (fun _ => "75.0"))
        "12ms").statusCode :=
  ⟨by decide, by decide, by decide,
    detailedHealthCheck_depends_on_statuses 1 2 "go1.20" "go1.21" "staging" "prod"
      (checkDatabaseHealth none none 3 "2ms") (checkDatabaseHealth none none 41 "9ms")
      (checkRedisHealth (some "timeout") "") (checkRedisHealth (some "refused") "")
      (checkDiskSpace (fun _ => "75")) (checkDiskSpace (fun _ => "75.0")) "4ms" "12ms"
      (by decide) (by decide) (by decide)⟩

/-! ## Probes -/

/-- C7 as stated fails at 90 open connections: with open and ping succeeding
the probe is UP there, although 90 is not below 90. -/
theorem checkDatabaseHealth_up_not_iff_below_ninety :
    ¬ (∀ (n : Int) (elapsed : String),
        (checkDatabaseHealth none none n elapsed).Status = "UP" ↔ n < 90) := by
  intro h
  have h90 := (h 90 "").mp (by decide)
  omega

/-- C7, amended: the database probe is DOWN exactly when the open or the ping
fails; when both succeed it is UP exactly when the open-connection count is at
most 90 and WARNING exactly when the count is above 90. -/
theorem checkDatabaseHealth_status (openErr pingErr : Option String) (n : Int)
    (elapsed : String) :
    ((checkDatabaseHealth openErr pingErr n elapsed).Status = "DOWN" ↔
        (openErr ≠ none ∨ pingErr ≠ none))
    ∧ ((checkDatabaseHealth none none n elapsed).Status = "UP" ↔ n ≤ 90)
    ∧ ((checkDatabaseHealth none none n elapsed).Status = "WARNING" ↔ 90 < n) := by
  rw [checkDatabaseHealth_cases, checkDatabaseHealth_cases]
  refine ⟨?_, ?_, ?_⟩
  · split_ifs with h1 h2 <;> simp_all
  · by_cases h : n > 90
    · have h2 : ¬ n ≤ 90 := by omega
      simp [h, h2]
    · have h2 : n ≤ 90 := by omega
      simp [h, h2]
  · by_cases h : n > 90
    · simp [h]
    · have h2 : ¬ 90 < n := by omega
      simp [h, h2]

/-- C8: as a function of the usage percentage the disk probe is WARNING exactly
above 90 and UP exactly at or below 90, so UP at 90 itself; with the simulated
usage of 75 the probe is UP whatever the text conversion. -/
theorem checkDiskSpace_threshold (fmt : ℚ → String) (u : ℚ) :
    ((checkDiskSpaceAt fmt u).Status = "WARNING" ↔ 90 < u)
    ∧ ((checkDiskSpaceAt fmt u).Status = "UP" ↔ u ≤ 90)
    ∧ (checkDiskSpaceAt fmt 90).Status = "UP"
    ∧ (checkDiskSpace fmt).Status = "UP" := by
  refine ⟨?_, ?_, ?_, ?_⟩
  · by_cases h : u > 90 <;> simp [checkDiskSpaceAt, h]
  · by_cases h : u > 90
    · have h2 : ¬ u ≤ 90 := not_le.mpr h
      simp [checkDiskSpaceAt, h, h2]
    · have h2 : u ≤ 90 := not_lt.mp h
      simp [checkDiskSpaceAt, h, h2]
  · simp [checkDiskSpaceAt]
  · have h : ¬ ((75 : ℚ) > 90) := by norm_num
    simp [checkDiskSpace, checkDiskSpaceAt, h]

/-! ## Observed behaviour of the aggregation -/

/-- C9: with the disk probe UP, the overall status is DOWN whenever the
database status is not UP or the Redis status is not DOWN, and it is UP exactly
when the database status is UP and the Redis status is DOWN. -/
theorem detailedHealthCheck_disk_up (now : Nat) (goVersion appEnv : String)
    (dbStatus redisStatus diskStatus : Status) (responseTime : String)
    (hdisk : diskStatus.Status = "UP") :
    ((dbStatus.Status ≠ "UP" ∨ redisStatus.Status ≠ "DOWN") →
      (detailedHealthCheckFrom now goVersion appEnv dbStatus redisStatus diskStatus
        responseTime).body.Status = "DOWN")
    ∧ ((detailedHealthCheckFrom now goVersion appEnv dbStatus redisStatus diskStatus
        responseTime).body.Status = "UP" ↔
      (dbStatus.Status = "UP" ∧ redisStatus.Status = "DOWN")) := by
  rw [detailedHealthCheckFrom_status, hdisk]
  by_cases h1 : redisStatus.Status = "DOWN" <;> by_cases h2 : dbStatus.Status = "UP" <;>
    simp [h1, h2]

/-- C9, at a reachable database, an unreachable Redis and the simulated disk:
the report is UP. -/
theorem detailedHealthCheck_disk_up_witness :
    (checkDiskSpace (fun _ => "75")).Status = "UP"
    ∧ (((checkDatabaseHealth none none 5 "2ms").Status ≠ "UP"
          ∨ (checkRedisHealth (some "refused") "").Status ≠ "DOWN") →
      (detailedHealthCheckFrom 0 "go1.21" "prod" (checkDatabaseHealth none none 5 "2ms")
        (checkRedisHealth (some "refused") "") (checkDiskSpace (fun _ => "75"))
        "3ms").body.Status = "DOWN")
    ∧ ((detailedHealthCheckFrom 0 "go1.21" "prod" (checkDatabaseHealth none none 5 "2ms")
        (checkRedisHealth (some "refused") "") (checkDiskSpace (fun _ => "75"))
        "3ms").body.Status = "UP" ↔
      ((checkDatabaseHealth none none 5 "2ms").Status = "UP"
        ∧ (checkRedisHealth (some "refused") "").Status = "DOWN")) :=
  ⟨by decide,
    detailedHealthCheck_disk_up 0 "go1.21" "prod" (checkDatabaseHealth none none 5 "2ms")
      (checkRedisHealth (some "refused") "") (checkDiskSpace (fun _ => "75")) "3ms"
      (by decide)⟩

/-- C10: when the status of the disk probe is not UP, the overall status is
WARNING and the code is 200, whatever the database and Redis results. -/
theorem detailedHealthCheck_disk_not_up (now : Nat) (goVersion appEnv : String)
    (dbStatus redisStatus diskStatus : Status) (responseTime : String)
    (hdisk : diskStatus.Status ≠ "UP") :
    (detailedHealthCheckFrom now goVersion appEnv dbStatus redisStatus diskStatus
        responseTime).body.Status = "WARNING"
    ∧ (detailedHealthCheckFrom now goVersion appEnv dbStatus redisStatus diskStatus
        responseTime).statusCode = 200 := by
  have hs : (detailedHealthCheckFrom now goVersion appEnv dbStatus redisStatus diskStatus
      responseTime).body.Status = "WARNING" := by
    rw [detailedHealthCheckFrom_status]
    simp [hdisk]
  refine ⟨hs, ?_⟩
  rw [detailedHealthCheckFrom_statusCode, hs]
  simp

/-- C10, at a failed database ping, a Redis that answers and a disk at 95
percent: the WARNING of the disk replaces the DOWN. -/
theorem detailedHealthCheck_disk_not_up_witness :
    (checkDiskSpaceAt (fun _ => "95") 95).Status ≠ "UP"
    ∧ (detailedHealthCheckFrom 0 "go1.21" "prod"
        (checkDatabaseHealth none (some "refused") 0 "")
        (checkRedisHealth none "1ms") (checkDiskSpaceAt (fun _ => "95") 95)
        "3ms").body.Status = "WARNING"
    ∧ (detailedHealthCheckFrom 0 "go1.21" "prod"
        (checkDatabaseHealth none (some "refused") 0 "")
        (checkRedisHealth none "1ms") (checkDiskSpaceAt (fun _ => "95") 95)
        "3ms").statusCode = 200 :=
  ⟨by decide,
    detailedHealthCheck_disk_not_up 0 "go1.21" "prod"
      (checkDatabaseHealth none (some "refused") 0 "")
      (checkRedisHealth none "1ms") (checkDiskSpaceAt (fun _ => "95") 95) "3ms"
      (by decide)⟩

end HealthCheck
